import Mathlib

/-!
Verification development for `labrad/decorators.py` (pylabrad): the
setting-registration compiler.  The Python function `setting(...).decorated`
inspects a handler's parameter list (already stripped of the fixed context
parameters), validates caller-declared accepted type tags, compiles the list
of accepted overload groups with their display strings, and synthesizes a
dispatch adapter (`unpack`).  We embed that computation shallowly:
registration is a pure function from a `HandlerSpec` to `Except RegError
Compiled`, and the adapter's behaviour is the pure function `unpackArgs`
giving the positional arguments passed to the handler after the context
arguments.

Machine-level conventions: `Nrequired = Nparams - Noptional` uses natural
subtraction; this agrees with the Python source whenever the defaults tuple
is no longer than the stripped argument list, which `inspect.getargspec`
guarantees for every handler whose fixed context parameters carry no
defaults (the domain of all claims considered here).
-/

set_option autoImplicit false

namespace LabradDec

/-- Type descriptors produced by the external type-tag parser
(`labrad.types`): the no-argument descriptor (empty tag), the wildcard,
cluster (tuple) descriptors, and all remaining concrete tags kept opaque. -/
inductive LRType where
  | lrNone
  | lrAny
  | lrCluster (elems : List LRType)
  | lrBase (tag : String)

mutual

/-- Decidable equality of descriptors (written by hand: the automatic
derivation does not handle the nested list). -/
def LRType.decEq : (a b : LRType) → Decidable (a = b)
  | .lrNone, .lrNone => isTrue rfl
  | .lrNone, .lrAny => isFalse nofun
  | .lrNone, .lrCluster _ => isFalse nofun
  | .lrNone, .lrBase _ => isFalse nofun
  | .lrAny, .lrNone => isFalse nofun
  | .lrAny, .lrAny => isTrue rfl
  | .lrAny, .lrCluster _ => isFalse nofun
  | .lrAny, .lrBase _ => isFalse nofun
  | .lrCluster _, .lrNone => isFalse nofun
  | .lrCluster _, .lrAny => isFalse nofun
  | .lrCluster a, .lrCluster b =>
    match LRType.decEqList a b with
    | isTrue h => isTrue (by rw [h])
    | isFalse h => isFalse (by intro hh; injection hh; contradiction)
  | .lrCluster _, .lrBase _ => isFalse nofun
  | .lrBase _, .lrNone => isFalse nofun
  | .lrBase _, .lrAny => isFalse nofun
  | .lrBase _, .lrCluster _ => isFalse nofun
  | .lrBase s, .lrBase t =>
    match String.decEq s t with
    | isTrue h => isTrue (by rw [h])
    | isFalse h => isFalse (by intro hh; injection hh; contradiction)

/-- Decidable equality of descriptor lists. -/
def LRType.decEqList : (a b : List LRType) → Decidable (a = b)
  | [], [] => isTrue rfl
  | [], _ :: _ => isFalse nofun
  | _ :: _, [] => isFalse nofun
  | x :: xs, y :: ys =>
    match LRType.decEq x y, LRType.decEqList xs ys with
    | isTrue h1, isTrue h2 => isTrue (by rw [h1, h2])
    | isFalse h1, _ => isFalse (by intro hh; injection hh; contradiction)
    | isTrue _, isFalse h2 => isFalse (by intro hh; injection hh; contradiction)

end

instance : DecidableEq LRType := LRType.decEq

/-- Modelled from the spec: element parse for one character inside a cluster
tag; the wire type-tag grammar itself is external to the core
(`labrad.types.parseTypeTag`), the spec only fixes that the empty tag is the
canonical no-argument descriptor, that a question mark is the wildcard, and
that parenthesised tags are cluster descriptors. -/
def charType (c : Char) : LRType :=
  if c = '?' then .lrAny else .lrBase (Char.toString c)

/-- Modelled from the spec: the external type-tag parser
(`labrad.types.parseTypeTag`, not under `src/`).  The empty string parses to
the canonical no-argument descriptor, a question mark to the wildcard-any
descriptor, a parenthesised tag to a cluster descriptor, and every other tag
to an opaque concrete descriptor. -/
def parseTypeTag (s : String) : LRType :=
  if s = "" then .lrNone
  else if s = "?" then .lrAny
  else if s.toList.head? = some '(' ∧ s.toList.getLast? = some ')' then
    .lrCluster (((s.toList.drop 1).dropLast).map charType)
  else .lrBase s

mutual

/-- Modelled from the spec: the rendering of a descriptor back to a tag
string, used by the overload-group compiler when it formats cluster members
(Python interpolates the descriptor object with percent-s). -/
def LRType.toStr : LRType → String
  | .lrNone => ""
  | .lrAny => "?"
  | .lrCluster elems => "(" ++ LRType.toStrList elems ++ ")"
  | .lrBase tag => tag

/-- Concatenation of the renderings of the member descriptors. -/
def LRType.toStrList : List LRType → String
  | [] => ""
  | t :: ts => t.toStr ++ LRType.toStrList ts

end

/-- True exactly for wildcard-any and cluster descriptors (the shapes the
first-argument sanity check rejects). -/
def anyOrCluster : LRType → Bool
  | .lrAny => true
  | .lrCluster _ => true
  | _ => false

/-- True exactly for cluster descriptors. -/
def LRType.isCluster : LRType → Bool
  | .lrCluster _ => true
  | _ => false

/-- Already-decoded wire payloads as the adapter sees them: the
absence-marker (Python `None`), a decoded tuple, or an opaque scalar carried
together with its `repr` string. -/
inductive PyData where
  | pynone
  | tup (elems : List PyData)
  | atom (r : String)

mutual

/-- Decidable equality of decoded values (by hand, as for `LRType`). -/
def PyData.decEq : (a b : PyData) → Decidable (a = b)
  | .pynone, .pynone => isTrue rfl
  | .pynone, .tup _ => isFalse nofun
  | .pynone, .atom _ => isFalse nofun
  | .tup _, .pynone => isFalse nofun
  | .tup a, .tup b =>
    match PyData.decEqList a b with
    | isTrue h => isTrue (by rw [h])
    | isFalse h => isFalse (by intro hh; injection hh; contradiction)
  | .tup _, .atom _ => isFalse nofun
  | .atom _, .pynone => isFalse nofun
  | .atom _, .tup _ => isFalse nofun
  | .atom s, .atom t =>
    match String.decEq s t with
    | isTrue h => isTrue (by rw [h])
    | isFalse h => isFalse (by intro hh; injection hh; contradiction)

/-- Decidable equality of value lists. -/
def PyData.decEqList : (a b : List PyData) → Decidable (a = b)
  | [], [] => isTrue rfl
  | [], _ :: _ => isFalse nofun
  | _ :: _, [] => isFalse nofun
  | x :: xs, y :: ys =>
    match PyData.decEq x y, PyData.decEqList xs ys with
    | isTrue h1, isTrue h2 => isTrue (by rw [h1, h2])
    | isFalse h1, _ => isFalse (by intro hh; injection hh; contradiction)
    | isTrue _, isFalse h2 => isFalse (by intro hh; injection hh; contradiction)

end

instance : DecidableEq PyData := PyData.decEq

mutual

/-- Modelled Python `repr` (`%r` formatting) of a decoded value; scalar
atoms carry their repr verbatim. -/
def PyData.reprStr : PyData → String
  | .pynone => "None"
  | .atom r => r
  | .tup elems => "(" ++ reprList elems ++ ")"

/-- Comma-joined reprs of a list of values. -/
def reprList : List PyData → String
  | [] => ""
  | [d] => d.reprStr
  | d :: ds => d.reprStr ++ ", " ++ reprList ds

end

/-- What `inspect.getargspec` yields for a handler after the fixed context
parameters are stripped (`args = args[lr_num_params:]`): the remaining
parameter names, the defaults tuple (aligned to the trailing parameters),
and the caller-declared accepted-type map (the decorator's keyword
arguments, name to list of tag strings). -/
structure HandlerSpec where
  args : List String
  defaults : Option (List PyData)
  params : List (String × List String)
deriving DecidableEq

/-- The defaults tuple as a list (empty when absent). -/
def defaultsList (h : HandlerSpec) : List PyData :=
  h.defaults.getD []

/-- Count `Nparams`: number of (non-context) parameters. -/
def Nparams (h : HandlerSpec) : Nat := h.args.length

/-- Count `Noptional`: length of the defaults tuple. -/
def Noptional (h : HandlerSpec) : Nat := (defaultsList h).length

/-- Count `Nrequired = Nparams - Noptional` (natural subtraction, see header). -/
def Nrequired (h : HandlerSpec) : Nat := Nparams h - Noptional h

/-- Python `params.get(name, dflt)` on the accepted-type map. -/
def paramsGet (h : HandlerSpec) (a : String) (dflt : List String) : List String :=
  (List.lookup a h.params).getD dflt

/-- The declared default value of parameter number `j` (counting from 0):
defined when `j` is in range and at least `Nrequired`, in which case it is
entry `j - Nrequired` of the defaults tuple, per Python's right alignment of
defaults with parameters. -/
def declaredDefault (h : HandlerSpec) (j : Nat) : Option PyData :=
  if j < Nparams h ∧ Nrequired h ≤ j then
    some ((defaultsList h).getD (j - Nrequired h) .pynone)
  else none

/-- The registration-time errors, one constructor per `raise` site of
`setting.decorated`; `RegError.message` recovers the exact Python text. -/
inductive RegError where
  | invalidParam (p : String)
  | mustSpecifyFirst
  | clusterOrAnyFirst
  | emptyTagTooManyRequired
  | emptyTagAfterFirst
  | clusterInFirstParam
deriving DecidableEq

/-- The message carried by each raised `Exception` in the source. -/
def RegError.message : RegError → String
  | .invalidParam p => "\x27" ++ p ++ "\x27 is not a valid parameter."
  | .mustSpecifyFirst =>
      "Must specify types for first argument when fewer than two args are required."
  | .clusterOrAnyFirst =>
      "Cannot accept cluster or ? in first arg when fewer than two args are required."
  | .emptyTagTooManyRequired =>
      "\x27\x27 not allowed when more than one arg is required."
  | .emptyTagAfterFirst => "\x27\x27 not allowed after first arg."
  | .clusterInFirstParam => "Can\x27t accept cluster in first param."

/-- Function `_product` from the source: cartesian product of a list of lists, outer
iteration over the first list. -/
def product {α : Type} : List (List α) → List (List α)
  | [] => [[]]
  | l :: ls => l.flatMap (fun hd => (product ls).map (fun t => hd :: t))

/-- Python `range(hi, lo - 1, -1)` for naturals: `hi, hi-1, ..., lo`
(empty when `hi < lo`). -/
def downRange (hi lo : Nat) : List Nat :=
  (List.range (hi + 1 - lo)).map (fun i => hi - i)

/-- The `groups` list built for handlers with two or more parameters: for
each arity `n` from `Nparams` down to `Nrequired`, the cartesian product of
the declared-type lists (defaulting to the wildcard) of the first `n`
parameters; the zero-length arity contributes nothing. -/
def groupsOf (h : HandlerSpec) : List (List String) :=
  (downRange (Nparams h) (Nrequired h)).flatMap (fun n =>
    let lists := (h.args.take n).map (fun a => paramsGet h a ["?"])
    if lists.length ≠ 0 then product lists else [])

/-- The compiled registration metadata the decorator attaches to the
handler: `accepts_s` (display strings) and `accepts_t` (descriptors). -/
structure Compiled where
  accepts_s : List String
  accepts_t : List LRType
deriving DecidableEq

/-- Display-string fragment `tag\x7bname\x7d` (tag followed by the
parameter name in braces). -/
def tagged (tag name : String) : String :=
  tag ++ "\x7b" ++ name ++ "\x7d"

/-- The defaults annotation appended in the single-optional-parameter case:
`: defaults [name=default]`. -/
def singleDefaultAnnot (h : HandlerSpec) : String :=
  ": defaults [" ++ h.args.headD "" ++ "="
    ++ ((defaultsList h).headD .pynone).reprStr ++ "]"

/-- The all-defaults annotation appended when every parameter is optional
and the no-argument descriptor is not already accepted. -/
def allDefaultsAnnot (h : HandlerSpec) : String :=
  ": defaults ["
    ++ String.intercalate ", "
        ((h.args.zip (defaultsList h)).map (fun p => p.1 ++ "=" ++ p.2.reprStr))
    ++ "]"

/-- Descriptor and bare display string of one overload group
(multi-parameter branch of the source): a group of length above one becomes
a cluster descriptor with a parenthesised display; a length-one group is its
parsed single tag, rejected if that parses to a cluster. -/
def renderGroupBase (h : HandlerSpec) (group : List String) :
    Except RegError (LRType × String) :=
  if 1 < group.length then
    .ok (.lrCluster (group.map parseTypeTag),
      "(" ++ String.intercalate ", "
          (((group.map parseTypeTag).zip h.args).map
            (fun p => tagged p.1.toStr p.2)) ++ ")")
  else
    if (parseTypeTag (group.headD "")).isCluster then
      .error .clusterInFirstParam
    else
      .ok (parseTypeTag (group.headD ""),
        tagged (group.headD "") (h.args.headD ""))

/-- The defaults annotation for a group of length `glen` below `Nparams`:
for each omitted position `n`, the pair `args[n]=defaults[n - glen]`,
indexing the defaults tuple at `n - len(group)` exactly as the source
does. -/
def withDefaultsAnnot (h : HandlerSpec) (glen : Nat) (s : String) : String :=
  if glen < Nparams h then
    s ++ ": defaults ["
      ++ String.intercalate ", "
          ((List.range' glen (Nparams h - glen)).map (fun n =>
            h.args.getD n "" ++ "="
              ++ ((defaultsList h).getD (n - glen) .pynone).reprStr))
      ++ "]"
  else s

/-- Rendering of one overload group: the bare display string followed by the
defaults annotation when the group omits trailing parameters. -/
def renderGroup (h : HandlerSpec) (group : List String) :
    Except RegError (LRType × String) :=
  match renderGroupBase h group with
  | .error e => .error e
  | .ok (t, s) => .ok (t, withDefaultsAnnot h group.length s)

/-- Rendering of all groups in order, accumulating display strings and
descriptors just as the source's loop appends to `accepts_s`/`accepts_t`. -/
def renderGroups (h : HandlerSpec) :
    List (List String) → Except RegError (List String × List LRType)
  | [] => .ok ([], [])
  | g :: gs =>
    match renderGroup h g with
    | .error e => .error e
    | .ok p =>
      match renderGroups h gs with
      | .error e => .error e
      | .ok r => .ok (p.2 :: r.1, p.1 :: r.2)

/-- The single-parameter branch of `setting.decorated` (`Nparams == 1`):
declared types are taken as-is; when the parameter is optional and the
declared list is non-empty without the no-argument descriptor, one extra
no-argument entry annotated with the default is appended. -/
def compile1 (h : HandlerSpec) : Except RegError Compiled :=
  if Nrequired h = 0 then
    if (paramsGet h (h.args.headD "") []).length ≠ 0 ∧
        LRType.lrNone ∉ (paramsGet h (h.args.headD "") []).map parseTypeTag then
      .ok ⟨paramsGet h (h.args.headD "") [] ++ [singleDefaultAnnot h],
        (paramsGet h (h.args.headD "") []).map parseTypeTag ++ [.lrNone]⟩
    else
      .ok ⟨paramsGet h (h.args.headD "") [],
        (paramsGet h (h.args.headD "") []).map parseTypeTag⟩
  else
    .ok ⟨paramsGet h (h.args.headD "") [],
      (paramsGet h (h.args.headD "") []).map parseTypeTag⟩

/-- The final step of the multi-parameter branch: when every parameter is
optional and the no-argument descriptor is not yet accepted, append one
all-defaults no-argument entry. -/
def compileFinal (h : HandlerSpec) (ss : List String) (ts : List LRType) :
    Compiled :=
  if Nrequired h = 0 ∧ LRType.lrNone ∉ ts then
    ⟨ss ++ [allDefaultsAnnot h], ts ++ [.lrNone]⟩
  else ⟨ss, ts⟩

/-- Second stage of the multi-parameter branch: the empty-tag checks, group
rendering, and the final all-optional no-argument entry. -/
def compileN2 (h : HandlerSpec) : Except RegError Compiled :=
  if 1 < Nrequired h ∧
      LRType.lrNone ∈ (paramsGet h (h.args.headD "") []).map parseTypeTag then
    .error .emptyTagTooManyRequired
  else if (h.args.drop 1).any
      (fun p => decide (LRType.lrNone ∈ (paramsGet h p []).map parseTypeTag)) then
    .error .emptyTagAfterFirst
  else
    match renderGroups h (groupsOf h) with
    | .error e => .error e
    | .ok r => .ok (compileFinal h r.1 r.2)

/-- The multi-parameter branch of `setting.decorated` (`Nparams >= 2`),
beginning with the first-argument sanity check that runs when at most one
parameter is required. -/
def compileN (h : HandlerSpec) : Except RegError Compiled :=
  if Nrequired h ≤ 1 then
    match List.lookup (h.args.headD "") h.params with
    | none => .error .mustSpecifyFirst
    | some ts =>
      if ts.any (fun s => anyOrCluster (parseTypeTag s)) then
        .error .clusterOrAnyFirst
      else compileN2 h
  else compileN2 h

/-- The whole of `setting.decorated` as far as the accepted-shapes table is
concerned: validate the declared parameter names, then dispatch on the
parameter count exactly as the source's `if Nparams == 0 / elif == 1 /
else` does. -/
def compile (h : HandlerSpec) : Except RegError Compiled :=
  match h.params.find? (fun kv => !h.args.contains kv.1) with
  | some kv => .error (.invalidParam kv.1)
  | none =>
    if Nparams h = 0 then .ok ⟨[""], [.lrNone]⟩
    else if Nparams h = 1 then compile1 h
    else compileN h

/-- True when registration raises. -/
def isErr {ε α : Type} : Except ε α → Bool
  | .error _ => true
  | .ok _ => false

/-- The synthesized adapter's behaviour: the positional arguments (after
the context arguments) with which the handler is invoked, for each of the
four adapter shapes selected by `(Nparams, Nrequired)` in the source. -/
def unpackArgs (np nreq : Nat) (data : PyData) : List PyData :=
  if np = 0 then []
  else if np = 1 then
    if nreq = 0 then
      match data with
      | .pynone => []
      | .tup elems => [.tup elems]
      | .atom r => [.atom r]
    else [data]
  else
    match data with
    | .tup elems => elems
    | .pynone => if nreq = 0 then [] else [.pynone]
    | .atom r => [.atom r]

/-- Modelled Python positional-call binding: a call with `pos` positional
values against `np` parameters of which the last `np - nreq` default to the
entries of `ds` binds the omitted trailing parameters to their declared
defaults; `none` when the arity is invalid. -/
def bindCall (np nreq : Nat) (ds : List PyData) (pos : List PyData) :
    Option (List PyData) :=
  if nreq ≤ pos.length ∧ pos.length ≤ np then
    some (pos ++ ds.drop (pos.length - nreq))
  else none

/-- Two parameters `a`, `b`, both optional with defaults `5` and `7`, first
parameter accepting tag `s`. -/
def hBug1 : HandlerSpec := ⟨["a", "b"], some [.atom "5", .atom "7"], [("a", ["s"])]⟩

/-- One optional parameter `a` (default `0`) with no declared types. -/
def hEmpty1 : HandlerSpec := ⟨["a"], some [.atom "0"], []⟩

/-- The no-parameter handler (used as a witness input). -/
def hC2w : HandlerSpec := ⟨[], none, []⟩

/-- One optional parameter `a` (default `0`) declaring only the empty tag. -/
def hTag1 : HandlerSpec := ⟨["a"], some [.atom "0"], [("a", [""])]⟩

/-- Two required parameters, the first declaring the empty tag. -/
def hTagW : HandlerSpec := ⟨["a", "b"], none, [("a", [""])]⟩

/-- One optional parameter `a` (default `0`) declaring an empty type list. -/
def hOpt1 : HandlerSpec := ⟨["a"], some [.atom "0"], [("a", [])]⟩

/-- One optional parameter `a` (default `0`) accepting tag `s`. -/
def hOptW : HandlerSpec := ⟨["a"], some [.atom "0"], [("a", ["s"])]⟩

/-- One required parameter `a` accepting the cluster tag `(si)`. -/
def hClu1 : HandlerSpec := ⟨["a"], none, [("a", ["(si)"])]⟩

/-- Parameters `a` (required, accepting `s`) and `b` (optional, default
`0`). -/
def hCluW : HandlerSpec := ⟨["a", "b"], some [.atom "0"], [("a", ["s"])]⟩

/-- Two all-optional parameters with no declared types at all. -/
def hAmb : HandlerSpec := ⟨["a", "b"], some [.atom "1", .atom "2"], []⟩

/-- The no-parameter handler. -/
def hZero : HandlerSpec := ⟨[], none, []⟩

/-- The no-parameter handler (witness copy). -/
def hC9w : HandlerSpec := ⟨[], none, []⟩

theorem findBad_none (h : HandlerSpec)
    (hkeys : ∀ kv ∈ h.params, kv.1 ∈ h.args) :
    h.params.find? (fun kv => !h.args.contains kv.1) = none := by
  rw [List.find?_eq_none]
  intro kv hkv
  simp [hkeys kv hkv]

theorem nreq_le_nparams (h : HandlerSpec) : Nrequired h ≤ Nparams h :=
  Nat.sub_le _ _

theorem unpack_empty_iff (np nreq : Nat) :
    unpackArgs np nreq .pynone = [] ↔ (np = 0 ∨ nreq = 0) := by
  unfold unpackArgs
  by_cases h0 : np = 0 <;> by_cases h1 : np = 1 <;> by_cases h2 : nreq = 0 <;>
    simp [h0, h1, h2]

theorem renderGroupBase_ok_single (h : HandlerSpec) (g : List String)
    (p : LRType × String) (hlen : g.length = 1)
    (hok : renderGroupBase h g = .ok p) :
    (parseTypeTag (g.headD "")).isCluster = false := by
  unfold renderGroupBase at hok
  rw [hlen] at hok
  rw [if_neg (by omega)] at hok
  by_cases hcl : (parseTypeTag (g.headD "")).isCluster = true
  · rw [if_pos hcl] at hok; simp at hok
  · simpa using hcl

theorem renderGroupBase_error (h : HandlerSpec) (g : List String)
    (e : RegError) (he : renderGroupBase h g = .error e) :
    e = .clusterInFirstParam := by
  unfold renderGroupBase at he
  split at he
  · simp at he
  · split at he
    · simp at he
      exact he.symm
    · simp at he

theorem renderGroup_ok_single (h : HandlerSpec) (g : List String)
    (p : LRType × String) (hlen : g.length = 1)
    (hok : renderGroup h g = .ok p) :
    (parseTypeTag (g.headD "")).isCluster = false := by
  unfold renderGroup at hok
  cases hb : renderGroupBase h g with
  | error e => rw [hb] at hok; simp at hok
  | ok q => exact renderGroupBase_ok_single h g q hlen hb

theorem renderGroups_ok_single (h : HandlerSpec) :
    ∀ (gs : List (List String)) (r : List String × List LRType),
      renderGroups h gs = .ok r → ∀ g ∈ gs, g.length = 1 →
        (parseTypeTag (g.headD "")).isCluster = false := by
  intro gs
  induction gs with
  | nil => intro r _ g hg; cases hg
  | cons g0 gs ih =>
    intro r hr g hg hlen
    unfold renderGroups at hr
    cases hg0 : renderGroup h g0 with
    | error e => rw [hg0] at hr; simp at hr
    | ok p =>
      rw [hg0] at hr
      cases hgs : renderGroups h gs with
      | error e => rw [hgs] at hr; simp at hr
      | ok r2 =>
        cases hg with
        | head => exact renderGroup_ok_single h g0 p hlen hg0
        | tail _ hmem => exact ih r2 hgs g hmem hlen

theorem renderGroup_error (h : HandlerSpec) (g : List String) (e : RegError)
    (he : renderGroup h g = .error e) : e = .clusterInFirstParam := by
  unfold renderGroup at he
  cases hb : renderGroupBase h g with
  | error e0 =>
    rw [hb] at he
    simp at he
    rw [← he]
    exact renderGroupBase_error h g e0 hb
  | ok q =>
    obtain ⟨t, s⟩ := q
    rw [hb] at he
    simp at he

theorem renderGroups_error (h : HandlerSpec) :
    ∀ (gs : List (List String)) (e : RegError),
      renderGroups h gs = .error e → e = .clusterInFirstParam := by
  intro gs
  induction gs with
  | nil => intro e he; simp [renderGroups] at he
  | cons g0 gs ih =>
    intro e he
    unfold renderGroups at he
    cases hg0 : renderGroup h g0 with
    | error e0 =>
      rw [hg0] at he
      simp at he
      rw [← he]
      exact renderGroup_error h g0 e0 hg0
    | ok p =>
      rw [hg0] at he
      cases hgs : renderGroups h gs with
      | error e1 =>
        rw [hgs] at he
        simp at he
        rw [← he]
        exact ih e1 hgs
      | ok r2 => rw [hgs] at he; simp at he

theorem compileN2_ok_renderGroups (h : HandlerSpec) (c : Compiled)
    (hok : compileN2 h = .ok c) :
    ∃ r, renderGroups h (groupsOf h) = .ok r := by
  unfold compileN2 at hok
  split at hok
  · simp at hok
  · split at hok
    · simp at hok
    · cases hr : renderGroups h (groupsOf h) with
      | error e => rw [hr] at hok; simp at hok
      | ok r => exact ⟨r, rfl⟩

theorem compileN_ok_compileN2 (h : HandlerSpec) (c : Compiled)
    (hok : compileN h = .ok c) : compileN2 h = .ok c := by
  unfold compileN at hok
  split at hok
  · split at hok
    · simp at hok
    · split at hok
      · simp at hok
      · exact hok
  · exact hok

theorem compile_ok_compileN (h : HandlerSpec) (c : Compiled)
    (hnp : 2 ≤ Nparams h) (hok : compile h = .ok c) : compileN h = .ok c := by
  unfold compile at hok
  split at hok
  · simp at hok
  · rw [if_neg (by omega), if_neg (by omega)] at hok
    exact hok

theorem compileN2_err_lift (h : HandlerSpec)
    (he : isErr (compileN2 h) = true) : isErr (compileN h) = true := by
  unfold compileN
  split
  · split
    · rfl
    · split
      · rfl
      · exact he
  · exact he

theorem compileN_err_lift (h : HandlerSpec) (hnp : 2 ≤ Nparams h)
    (he : isErr (compileN h) = true) : isErr (compile h) = true := by
  unfold compile
  split
  · rfl
  · rw [if_neg (by omega), if_neg (by omega)]
    exact he

theorem compileN2_err_of_lrNone_rest (h : HandlerSpec) (j : Nat)
    (hj1 : 1 ≤ j) (hj2 : j < Nparams h)
    (hmem : LRType.lrNone ∈ (paramsGet h (h.args.getD j "") []).map parseTypeTag) :
    isErr (compileN2 h) = true := by
  have hj2' : j < h.args.length := hj2
  have hname : h.args.getD j "" ∈ h.args.drop 1 := by
    have hsome : (h.args.drop 1)[j - 1]? = some (h.args.getD j "") := by
      rw [List.getElem?_drop, show 1 + (j - 1) = j from by omega,
        List.getElem?_eq_getElem hj2', List.getD_eq_getElem _ _ hj2']
    exact List.getElem?_mem hsome
  have hany : (h.args.drop 1).any
      (fun p => decide (LRType.lrNone ∈ (paramsGet h p []).map parseTypeTag)) = true := by
    rw [List.any_eq_true]
    exact ⟨h.args.getD j "", hname, by simpa using hmem⟩
  unfold compileN2
  split
  · rfl
  · simp [hany, isErr]

theorem compileN2_err_of_lrNone_first (h : HandlerSpec)
    (hreq : 1 < Nrequired h)
    (hmem : LRType.lrNone ∈ (paramsGet h (h.args.headD "") []).map parseTypeTag) :
    isErr (compileN2 h) = true := by
  unfold compileN2
  rw [if_pos ⟨hreq, hmem⟩]
  rfl

/-- C1 (code bug witnessed): for the handler `hBug1` with two all-optional
parameters (`a` with default `5`, `b` with default `7`, `a` accepting tag
`s`), the compiled arity-1 overload is rendered with the annotation `b=5` —
the source indexes the defaults tuple at `n - len(group)` — while the
declared default of the omitted parameter `b` (`args[1]`) is `7`.  The claim
(and the spec) require the omitted parameter's own default to be listed. -/
theorem c1_defaults_wrong_index :
    compile hBug1 = .ok ⟨["(s\x7ba\x7d, ?\x7bb\x7d)",
        "s\x7ba\x7d: defaults [b=5]", ": defaults [a=5, b=7]"],
      [.lrCluster [.lrBase "s", .lrAny], .lrBase "s", .lrNone]⟩
    ∧ declaredDefault hBug1 1 = some (.atom "7") :=
  ⟨rfl, rfl⟩

/-- C2 (counterexample): the claim states the accepted-group-strings list is
non-empty iff the handler accepts the empty call.  The single-optional-
parameter handler `hEmpty1` with no declared types compiles to an empty
accepted list, yet its adapter maps the absence-marker to a context-only
invocation (it accepts the empty call), refuting the claimed equivalence. -/
theorem c2_cex :
    compile hEmpty1 = .ok ⟨[], []⟩
    ∧ unpackArgs (Nparams hEmpty1) (Nrequired hEmpty1) .pynone = [] :=
  ⟨rfl, rfl⟩

/-- C2 (amended): when the synthesized adapter maps the absence-marker to a
context-only invocation and the compiled accepted list is non-empty, the
no-argument descriptor appears among the accepted descriptors. -/
theorem c2_amended_nonempty_carries_none (h : HandlerSpec) (c : Compiled)
    (hok : compile h = .ok c)
    (hempty : unpackArgs (Nparams h) (Nrequired h) .pynone = [])
    (hne : c.accepts_s ≠ []) :
    LRType.lrNone ∈ c.accepts_t := by
  have hcase := (unpack_empty_iff (Nparams h) (Nrequired h)).mp hempty
  unfold compile at hok
  split at hok
  · simp at hok
  · by_cases h0 : Nparams h = 0
    · rw [if_pos h0] at hok
      simp at hok
      rw [← hok]
      simp
    · rw [if_neg h0] at hok
      have hz : Nrequired h = 0 := by
        rcases hcase with h' | h'
        · exact absurd h' h0
        · exact h'
      by_cases h1 : Nparams h = 1
      · rw [if_pos h1] at hok
        unfold compile1 at hok
        rw [if_pos hz] at hok
        split at hok
        · simp at hok
          rw [← hok]
          simp
        · rename_i hcond
          simp at hok
          rw [← hok] at hne ⊢
          have hlen : (paramsGet h (h.args.headD "") []).length ≠ 0 := by
            intro hl
            exact hne (by simpa using List.length_eq_zero.mp hl)
          have : LRType.lrNone ∈
              (paramsGet h (h.args.headD "") []).map parseTypeTag := by
            by_contra hmem
            exact hcond ⟨hlen, hmem⟩
          simpa using this
      · rw [if_neg h1] at hok
        have hok2 := compileN_ok_compileN2 h c hok
        unfold compileN2 at hok2
        split at hok2
        · simp at hok2
        · split at hok2
          · simp at hok2
          · cases hr : renderGroups h (groupsOf h) with
            | error e => rw [hr] at hok2; simp at hok2
            | ok r =>
              rw [hr] at hok2
              simp at hok2
              rw [← hok2]
              unfold compileFinal
              by_cases hfin : Nrequired h = 0 ∧ LRType.lrNone ∉ r.2
              · rw [if_pos hfin]
                simp
              · rw [if_neg hfin]
                have hmem : LRType.lrNone ∈ r.2 := by
                  by_contra hmem
                  exact hfin ⟨hz, hmem⟩
                simpa using hmem

/-- C2 witness: the no-parameter handler satisfies all hypotheses of the
amended statement and its accepted descriptors contain the no-argument
descriptor. -/
theorem c2_witness : LRType.lrNone ∈ ([LRType.lrNone] : List LRType) :=
  c2_amended_nonempty_carries_none hC2w ⟨[""], [.lrNone]⟩ rfl rfl (by decide)

/-- C3 (counterexample): the claim says the empty tag may appear in the
first parameter's declared types only when exactly one argument is required,
registration failing otherwise.  The handler `hTag1` (one optional
parameter, zero required, declared types `[""]`) registers successfully. -/
theorem c3_cex :
    compile hTag1 = .ok ⟨[""], [.lrNone]⟩
    ∧ Nrequired hTag1 = 0
    ∧ LRType.lrNone ∈ (paramsGet hTag1 "a" []).map parseTypeTag :=
  ⟨rfl, rfl, by decide⟩

/-- C3 (amended): registration fails with a fatal error whenever the
no-argument (empty-string) descriptor appears in the first parameter's
declared types with more than one required argument, or in the declared
types of any parameter other than the first. -/
theorem c3_amended_empty_tag (h : HandlerSpec)
    (hcond : (1 < Nrequired h ∧
        LRType.lrNone ∈ (paramsGet h (h.args.headD "") []).map parseTypeTag)
      ∨ (∃ j, 1 ≤ j ∧ j < Nparams h ∧
          LRType.lrNone ∈ (paramsGet h (h.args.getD j "") []).map parseTypeTag)) :
    isErr (compile h) = true := by
  have hnp : 2 ≤ Nparams h := by
    rcases hcond with ⟨hr, _⟩ | ⟨j, hj1, hj2, _⟩
    · have := nreq_le_nparams h
      omega
    · omega
  apply compileN_err_lift h hnp
  apply compileN2_err_lift h
  rcases hcond with ⟨hr, hm⟩ | ⟨j, hj1, hj2, hm⟩
  · exact compileN2_err_of_lrNone_first h hr hm
  · exact compileN2_err_of_lrNone_rest h j hj1 hj2 hm

/-- C3 witness: a two-required-parameter handler declaring the empty tag on
its first parameter fails to register. -/
theorem c3_witness : isErr (compile hTagW) = true :=
  c3_amended_empty_tag hTagW (Or.inl ⟨by decide, by decide⟩)

/-- C4 (counterexample): the claim says every single-parameter all-optional
handler whose declared types lack the no-argument descriptor gains exactly
one extra no-argument entry.  The handler `hOpt1` declares an empty type
list (which lacks the descriptor) and compiles with no entry at all: the
source only appends when the declared list is non-empty. -/
theorem c4_cex :
    compile hOpt1 = .ok ⟨[], []⟩
    ∧ Nparams hOpt1 = 1 ∧ Nrequired hOpt1 = 0
    ∧ LRType.lrNone ∉ (paramsGet hOpt1 "a" []).map parseTypeTag :=
  ⟨rfl, rfl, rfl, by decide⟩

/-- C4 (amended): for every handler with one parameter, zero required,
whose declared accepted types are non-empty and do not contain the
no-argument descriptor, compilation appends exactly one extra accepted
entry: the no-argument descriptor, displayed as the defaults annotation
carrying the parameter's default value. -/
theorem c4_amended_appends_none (h : HandlerSpec)
    (hkeys : ∀ kv ∈ h.params, kv.1 ∈ h.args)
    (h1 : Nparams h = 1) (h0 : Nrequired h = 0)
    (hne : paramsGet h (h.args.headD "") [] ≠ [])
    (hnn : LRType.lrNone ∉ (paramsGet h (h.args.headD "") []).map parseTypeTag) :
    compile h = .ok ⟨paramsGet h (h.args.headD "") [] ++ [singleDefaultAnnot h],
      (paramsGet h (h.args.headD "") []).map parseTypeTag ++ [.lrNone]⟩ := by
  have hlen : (paramsGet h (h.args.headD "") []).length ≠ 0 := by
    intro hl
    exact hne (List.length_eq_zero.mp hl)
  unfold compile
  simp only [findBad_none h hkeys]
  rw [if_neg (by omega), if_pos h1]
  unfold compile1
  rw [if_pos h0, if_pos ⟨hlen, hnn⟩]

/-- C4 witness: the one-optional-parameter handler accepting `s` gains the
annotated no-argument entry. -/
theorem c4_witness :
    compile hOptW = .ok ⟨["s", ": defaults [a=0]"], [.lrBase "s", .lrNone]⟩ :=
  c4_amended_appends_none hOptW (by decide) rfl rfl (by decide) (by decide)

/-- C5 (counterexample): the claim says an arity-1 accepted group with a
cluster descriptor always aborts registration, for every parameter count
including single-parameter handlers.  The single-required-parameter handler
`hClu1` declaring the cluster tag `(si)` registers successfully and accepts
the cluster. -/
theorem c5_cex :
    compile hClu1 = .ok ⟨["(si)"], [.lrCluster [.lrBase "s", .lrBase "i"]]⟩
    ∧ (parseTypeTag "(si)").isCluster = true :=
  ⟨rfl, rfl⟩

/-- C5 (amended): for handlers with at least two parameters, no successful
registration admits an arity-1 accepted group whose single descriptor is a
cluster (registration would have failed); single-parameter handlers are not
subject to the check. -/
theorem c5_amended_no_cluster_single (h : HandlerSpec) (c : Compiled)
    (hnp : 2 ≤ Nparams h) (hok : compile h = .ok c) :
    ∀ g ∈ groupsOf h, g.length = 1 →
      (parseTypeTag (g.headD "")).isCluster = false := by
  have hN := compile_ok_compileN h c hnp hok
  have hN2 := compileN_ok_compileN2 h c hN
  obtain ⟨r, hr⟩ := compileN2_ok_renderGroups h c hN2
  exact renderGroups_ok_single h (groupsOf h) r hr

/-- C5 witness: in the registered two-parameter handler `hCluW`, the arity-1
group `["s"]` indeed carries a non-cluster descriptor. -/
theorem c5_witness :
    (parseTypeTag (["s"].headD "")).isCluster = false :=
  c5_amended_no_cluster_single hCluW
    ⟨["(s\x7ba\x7d, ?\x7bb\x7d)", "s\x7ba\x7d: defaults [b=0]"],
      [.lrCluster [.lrBase "s", .lrAny], .lrBase "s"]⟩
    (by decide) rfl ["s"] (by decide) rfl

/-- C6 (confirmed): for every handler with at least two parameters and at
most one required, registration fails unless the first parameter has a
declared accepted-type list none of whose entries parses to wildcard-any or
a cluster; and when such a list is declared, registration never fails with
the first-argument errors. -/
theorem c6_first_arg_check (h : HandlerSpec)
    (hnp : 2 ≤ Nparams h) (hnr : Nrequired h ≤ 1) :
    ((List.lookup (h.args.headD "") h.params = none
        ∨ ∃ s ∈ (List.lookup (h.args.headD "") h.params).getD [],
            anyOrCluster (parseTypeTag s) = true) →
      isErr (compile h) = true)
    ∧ (∀ ts, List.lookup (h.args.headD "") h.params = some ts →
        (∀ s ∈ ts, anyOrCluster (parseTypeTag s) = false) →
        ∀ e, compile h = .error e →
          e ≠ .mustSpecifyFirst ∧ e ≠ .clusterOrAnyFirst) := by
  constructor
  · intro hbad
    apply compileN_err_lift h hnp
    unfold compileN
    rw [if_pos hnr]
    cases hl : List.lookup (h.args.headD "") h.params with
    | none => rfl
    | some ts =>
      rcases hbad with hnone | ⟨s, hs, hac⟩
      · rw [hl] at hnone
        simp at hnone
      · rw [hl] at hs
        have hany : ts.any (fun s => anyOrCluster (parseTypeTag s)) = true := by
          rw [List.any_eq_true]
          exact ⟨s, by simpa using hs, hac⟩
        simp [hany, isErr]
  · intro ts hl hgood e he
    unfold compile at he
    split at he
    · simp at he
      rw [← he]
      exact ⟨nofun, nofun⟩
    · rw [if_neg (by omega), if_neg (by omega)] at he
      unfold compileN at he
      rw [if_pos hnr] at he
      split at he
      · rename_i heq
        rw [hl] at heq
        simp at heq
      · rename_i ts2 heq
        rw [hl] at heq
        have hts : ts2 = ts := by
          simpa using heq.symm
        subst hts
        have hany : ts2.any (fun s => anyOrCluster (parseTypeTag s)) = false := by
          rw [List.any_eq_false]
          intro s hs
          simp [hgood s hs]
        rw [hany] at he
        simp at he
        unfold compileN2 at he
        split at he
        · simp at he
          rw [← he]
          exact ⟨nofun, nofun⟩
        · split at he
          · simp at he
            rw [← he]
            exact ⟨nofun, nofun⟩
          · cases hr : renderGroups h (groupsOf h) with
            | error e0 =>
              rw [hr] at he
              simp at he
              have hcl := renderGroups_error h (groupsOf h) e0 hr
              rw [← he, hcl]
              exact ⟨nofun, nofun⟩
            | ok r =>
              rw [hr] at he
              simp at he

/-- C6 witness: a two-parameter all-optional handler with no declared types
for its first parameter fails to register. -/
theorem c6_witness : isErr (compile hAmb) = true :=
  (c6_first_arg_check hAmb (by decide) (by decide)).1 (Or.inl (by decide))

/-- C7 (confirmed): the cartesian combination generator yields exactly one
empty combination on zero position lists, and on `[[a,b],[c]]` yields
exactly `[[a,c],[b,c]]`, in that order. -/
theorem c7_product_spec :
    (∀ (α : Type), product ([] : List (List α)) = [[]])
    ∧ (∀ (α : Type) (a b c : α), product [[a, b], [c]] = [[a, c], [b, c]]) :=
  ⟨fun _ => rfl, fun _ _ _ _ => rfl⟩

/-- C8 (confirmed): for every adapter with at least two parameters, a tuple
payload is spread positionally after the context arguments (with omitted
trailing parameters bound to their declared defaults under positional-call
binding), the absence-marker with zero required parameters invokes with
context only, and a scalar payload is passed as the single positional
value. -/
theorem c8_unpack_multi (np nreq : Nat) (hnp : 2 ≤ np) :
    (∀ elems, unpackArgs np nreq (.tup elems) = elems)
    ∧ (nreq = 0 → unpackArgs np nreq .pynone = [])
    ∧ (∀ r, unpackArgs np nreq (.atom r) = [.atom r])
    ∧ (∀ elems ds, nreq ≤ elems.length → elems.length ≤ np →
        bindCall np nreq ds (unpackArgs np nreq (.tup elems))
          = some (elems ++ ds.drop (elems.length - nreq))) := by
  have h0 : ¬ np = 0 := by omega
  have h1 : ¬ np = 1 := by omega
  refine ⟨fun elems => ?_, fun hz => ?_, fun r => ?_, fun elems ds hle1 hle2 => ?_⟩
  · simp [unpackArgs, h0, h1]
  · simp [unpackArgs, h0, h1, hz]
  · simp [unpackArgs, h0, h1]
  · simp [unpackArgs, bindCall, h0, h1, hle1, hle2]

/-- C8 witness: a 3-parameter, 1-required adapter spreads a 2-tuple payload
and positional binding leaves the third parameter at its declared default. -/
theorem c8_witness :
    bindCall 3 1 [.atom "5", .atom "7"]
      (unpackArgs 3 1 (.tup [.atom "x", .atom "y"]))
      = some [.atom "x", .atom "y", .atom "7"] := by
  have := (c8_unpack_multi 3 1 (by omega)).2.2.2 [.atom "x", .atom "y"]
    [.atom "5", .atom "7"] (by decide) (by decide)
  simpa using this

/-- C9 (counterexample): the claim asserts the single no-parameter entry's
display string is `no arguments`; the source advertises the empty type tag
itself, the empty string. -/
theorem c9_cex :
    compile hZero = .ok ⟨[""], [.lrNone]⟩ ∧ "" ≠ "no arguments" :=
  ⟨rfl, by decide⟩

/-- C9 (amended): for every handler with zero parameters (and declared keys
naming only real parameters), the compiled table has exactly one entry, the
no-argument descriptor displayed as the empty tag string, and the adapter
ignores any payload, invoking with context only. -/
theorem c9_amended_empty_display (h : HandlerSpec)
    (hz : Nparams h = 0) (hkeys : ∀ kv ∈ h.params, kv.1 ∈ h.args) :
    compile h = .ok ⟨[""], [.lrNone]⟩
    ∧ ∀ d, unpackArgs (Nparams h) (Nrequired h) d = [] := by
  constructor
  · unfold compile
    rw [findBad_none h hkeys]
    simp [hz]
  · intro d
    simp [unpackArgs, hz]

/-- C9 witness: the no-parameter handler compiles to the single empty-tag
entry and its adapter discards a scalar payload. -/
theorem c9_witness :
    compile hC9w = .ok ⟨[""], [.lrNone]⟩
    ∧ unpackArgs (Nparams hC9w) (Nrequired hC9w) (.atom "z") = [] :=
  ⟨(c9_amended_empty_display hC9w rfl (by decide)).1,
   (c9_amended_empty_display hC9w rfl (by decide)).2 (.atom "z")⟩

/-- C10 (confirmed): for every adapter with at least two parameters and at
least one required, the absence-marker payload is not rejected: it is
forwarded to the handler as the single positional argument after the context
arguments, exactly as any other scalar payload would be. -/
theorem c10_none_forwarded (np nreq : Nat) (hnp : 2 ≤ np) (hnr : 1 ≤ nreq) :
    unpackArgs np nreq .pynone = [.pynone]
    ∧ ∀ r, unpackArgs np nreq (.atom r) = [.atom r] := by
  have h0 : ¬ np = 0 := by omega
  have h1 : ¬ np = 1 := by omega
  have h2 : ¬ nreq = 0 := by omega
  constructor
  · simp [unpackArgs, h0, h1, h2]
  · intro r
    simp [unpackArgs, h0, h1]

/-- C10 witness: a 2-parameter, 1-required adapter forwards the
absence-marker as its single positional argument. -/
theorem c10_witness : unpackArgs 2 1 PyData.pynone = [PyData.pynone] :=
  (c10_none_forwarded 2 1 (by omega) (by omega)).1

end LabradDec
